import Mathlib

/-!
Verification of the JUCE-Audio-Service EDL subsystem: the EDL store
(validation, revisioning, atomic replace), the EDL compiler, the window
renderer, and the `UpdateEdl` / `RenderEdlWindow` front-end handlers.
Sample values are modelled exactly over `ℚ`; machine 32-bit words are `Nat`
reduced modulo `2^32`.
-/

namespace JuceAudioService

/-! ### SHA-256 (FIPS 180-4), modelling the OpenSSL `EVP_sha256` digest used
by `EdlStore::calculateSHA256`. Bytes are `Nat` values below 256; 32-bit
words are `Nat` values reduced modulo `2 ^ 32`. -/

/-- Modulus for 32-bit words. -/
def M32 : Nat := 4294967296

/-- Right rotation of a 32-bit word (input assumed below `M32`). -/
def rotr32 (n x : Nat) : Nat :=
  (x >>> n) ||| ((x <<< (32 - n)) % M32)

/-- Bitwise complement of a 32-bit word. -/
def not32 (x : Nat) : Nat := x ^^^ 4294967295

/-- Ch(x,y,z) = (x ∧ y) ⊕ (¬x ∧ z). -/
def ch32 (x y z : Nat) : Nat := (x &&& y) ^^^ (not32 x &&& z)

/-- Maj(x,y,z) = (x ∧ y) ⊕ (x ∧ z) ⊕ (y ∧ z). -/
def maj32 (x y z : Nat) : Nat := (x &&& y) ^^^ (x &&& z) ^^^ (y &&& z)

/-- Big sigma 0. -/
def bsig0 (x : Nat) : Nat := rotr32 2 x ^^^ rotr32 13 x ^^^ rotr32 22 x

/-- Big sigma 1. -/
def bsig1 (x : Nat) : Nat := rotr32 6 x ^^^ rotr32 11 x ^^^ rotr32 25 x

/-- Small sigma 0. -/
def ssig0 (x : Nat) : Nat := rotr32 7 x ^^^ rotr32 18 x ^^^ (x >>> 3)

/-- Small sigma 1. -/
def ssig1 (x : Nat) : Nat := rotr32 17 x ^^^ rotr32 19 x ^^^ (x >>> 10)

/-- The 64 SHA-256 round constants (FIPS 180-4 §4.2.2, in decimal). -/
def shaK : List Nat :=
  [1116352408, 1899447441, 3049323471, 3921009573, 961987163, 1508970993,
   2453635748, 2870763221, 3624381080, 310598401, 607225278, 1426881987,
   1925078388, 2162078206, 2614888103, 3248222580, 3835390401, 4022224774,
   264347078, 604807628, 770255983, 1249150122, 1555081692, 1996064986,
   2554220882, 2821834349, 2952996808, 3210313671, 3336571891, 3584528711,
   113926993, 338241895, 666307205, 773529912, 1294757372, 1396182291,
   1695183700, 1986661051, 2177026350, 2456956037, 2730485921, 2820302411,
   3259730800, 3345764771, 3516065817, 3600352804, 4094571909, 275423344,
   430227734, 506948616, 659060556, 883997877, 958139571, 1322822218,
   1537002063, 1747873779, 1955562222, 2024104815, 2227730452, 2361852424,
   2428436474, 2756734187, 3204031479, 3329325298]

/-- Eight-word compression state. -/
structure Hash8 where
  a : Nat
  b : Nat
  c : Nat
  d : Nat
  e : Nat
  f : Nat
  g : Nat
  h : Nat
deriving DecidableEq, Repr

/-- One SHA-256 round with round constant `kt` and schedule word `wt`. -/
def shaRound (s : Hash8) (kt wt : Nat) : Hash8 :=
  let t1 := (s.h + bsig1 s.e + ch32 s.e s.f s.g + kt + wt) % M32
  let t2 := (bsig0 s.a + maj32 s.a s.b s.c) % M32
  ⟨(t1 + t2) % M32, s.a, s.b, s.c, (s.d + t1) % M32, s.e, s.f, s.g⟩

/-- Add two compression states word-wise modulo `2 ^ 32`. -/
def addState (x y : Hash8) : Hash8 :=
  ⟨(x.a + y.a) % M32, (x.b + y.b) % M32, (x.c + y.c) % M32, (x.d + y.d) % M32,
   (x.e + y.e) % M32, (x.f + y.f) % M32, (x.g + y.g) % M32, (x.h + y.h) % M32⟩

/-- Assemble a big-endian 32-bit word from four bytes. -/
def word32 (b0 b1 b2 b3 : Nat) : Nat :=
  (b0 <<< 24) + (b1 <<< 16) + (b2 <<< 8) + b3

/-- Cut a 64-byte block into its 16 big-endian words. -/
def wordsOf : List Nat → List Nat
  | b0 :: b1 :: b2 :: b3 :: rest => word32 b0 b1 b2 b3 :: wordsOf rest
  | _ => []

/-- Extend the message schedule by `k` further words; `w` is the schedule so
far, most recent word first. -/
def extendSchedule (w : List Nat) : Nat → List Nat
  | 0 => w
  | k + 1 =>
      extendSchedule
        (((ssig1 (w.getD 1 0) + w.getD 6 0 + ssig0 (w.getD 14 0)
            + w.getD 15 0) % M32) :: w) k

/-- The full 64-word schedule of one block, in round order. -/
def schedule (block : List Nat) : List Nat :=
  (extendSchedule (wordsOf block).reverse 48).reverse

/-- Compress one 64-byte block into the running state. -/
def compressBlock (st : Hash8) (block : List Nat) : Hash8 :=
  addState st
    ((List.zip shaK (schedule block)).foldl
      (fun s p => shaRound s p.1 p.2) st)

/-- Initial compression state: the eight IV words of FIPS 180-4 §5.3.3,
in decimal. -/
def ivState : Hash8 :=
  ⟨1779033703, 3144134277, 1013904242, 2773480762,
   1359893119, 2600822924, 528734635, 1541459225⟩

/-- Split a byte list into 64-byte chunks; the fuel bounds the recursion
depth and is instantiated with the list length. -/
def chunks64Aux : Nat → List Nat → List (List Nat)
  | 0, _ => []
  | _, [] => []
  | fuel + 1, x :: xs => (x :: xs).take 64 :: chunks64Aux fuel ((x :: xs).drop 64)

/-- Split a byte list into 64-byte chunks. -/
def chunks64 (l : List Nat) : List (List Nat) := chunks64Aux l.length l

/-- Big-endian 8-byte encoding of a natural number (low 64 bits). -/
def u64be (n : Nat) : List Nat :=
  [(n >>> 56) % 256, (n >>> 48) % 256, (n >>> 40) % 256, (n >>> 32) % 256,
   (n >>> 24) % 256, (n >>> 16) % 256, (n >>> 8) % 256, n % 256]

/-- SHA-256 padding: `0x80`, zeros to 56 mod 64, then the bit length. -/
def padMsg (msg : List Nat) : List Nat :=
  msg ++ 128 :: List.replicate ((119 - msg.length % 64) % 64) 0
      ++ u64be (8 * msg.length)

/-- Big-endian 4-byte encoding of a 32-bit word. -/
def u32be (x : Nat) : List Nat :=
  [(x >>> 24) % 256, (x >>> 16) % 256, (x >>> 8) % 256, x % 256]

/-- Digest bytes of the final state. -/
def stateBytes (s : Hash8) : List Nat :=
  u32be s.a ++ u32be s.b ++ u32be s.c ++ u32be s.d
    ++ u32be s.e ++ u32be s.f ++ u32be s.g ++ u32be s.h

/-- SHA-256 digest (32 bytes) of a byte list. -/
def sha256Bytes (msg : List Nat) : List Nat :=
  stateBytes ((chunks64 (padMsg msg)).foldl compressBlock ivState)

/-- Lowercase hex digit for a value below 16 (`std::hex` with
`std::setfill('0')` formatting): digits from `'0'` (48), letters from
`'a'` (97). -/
def hexChar (n : Nat) : Char :=
  if n < 10 then Char.ofNat (48 + n)
  else if n < 16 then Char.ofNat (87 + n)
  else '0'

/-- Two lowercase hex digits of a byte. -/
def byteHex (b : Nat) : List Char := [hexChar (b / 16), hexChar (b % 16)]

/-- Lowercase hex string of a byte list. -/
def bytesToHex (bs : List Nat) : String :=
  String.mk (bs.foldr (fun b acc => byteHex b ++ acc) [])

/-- UTF-8 bytes of an ASCII string, as `Nat` values. -/
def strBytes (s : String) : List Nat := s.data.map Char.toNat

/-- Hex SHA-256 of a string, as `EdlStore::calculateSHA256` returns it. -/
def calculateSHA256 (data : String) : String :=
  bytesToHex (sha256Bytes (strBytes data))

example : calculateSHA256 "abc" =
    "ba7816bf8f01cfea414140de5dae2223b00361a396177a9cb410ff61f20015ad" := by
  decide

/-! ### Wire data model.

Modelled from the spec: the `audio_engine.proto` message definitions are not
in the sources; fields follow §3 of the specification (media reference,
clip, fade, track, EDL) and the scaffold EDL JSON shipped with the repo.
Sample positions are `Int` (proto `int64`); decibel gains are exact `ℚ`. -/

/-- Modelled from the spec: the fade shape enum, with the proto3 default
(unspecified) value alongside `LINEAR` and `EQUAL_POWER`. -/
inductive FadeShapeE
  | FADE_SHAPE_UNSPECIFIED
  | LINEAR
  | EQUAL_POWER
deriving DecidableEq, Repr

/-- Modelled from the spec: `Fade{duration_samples, shape}`. -/
structure Fade where
  duration_samples : Int
  shape : FadeShapeE
deriving DecidableEq, Repr

/-- Modelled from the spec: a clip placement (§3), with optional fades. -/
structure Clip where
  id : String
  media_id : String
  start_in_media : Int
  start_in_timeline : Int
  duration : Int
  gain_db : ℚ
  muted : Bool
  fade_in : Option Fade
  fade_out : Option Fade
deriving DecidableEq, Repr

/-- Modelled from the spec: a track (§3). -/
structure Track where
  id : String
  gain_db : ℚ
  muted : Bool
  clips : List Clip
deriving DecidableEq, Repr

/-- Modelled from the spec: a media reference (`AudioRef`, §3). -/
structure AudioRef where
  id : String
  path : String
  sample_rate : Int
  channels : Int
deriving DecidableEq, Repr

/-- Modelled from the spec: the EDL message (§3). -/
structure Edl where
  id : String
  sample_rate : Int
  revision : String
  media : List AudioRef
  tracks : List Track
deriving DecidableEq, Repr

/-- Modelled from the spec: `TimeRange{start_samples, duration_samples}`. -/
structure TimeRange where
  start_samples : Int
  duration_samples : Int
deriving DecidableEq, Repr

/-! ### Canonical JSON serialization.

Modelled from the spec: `google::protobuf::util::MessageToJsonString`, the
serializer `calculateRevision` feeds to SHA-256, is not part of the sources.
Per §6 the canonical form is compact JSON with snake_case field names, enum
shapes as strings, and (proto3) default-valued scalar fields omitted. -/

/-- JSON string literal (identifiers in this development need no escaping). -/
def jstr (s : String) : String := "\"" ++ s ++ "\""

/-- JSON member `"name":value`. -/
def jfield (name value : String) : String := jstr name ++ ":" ++ value

/-- JSON object from the present members. -/
def jobj (fields : List (Option String)) : String :=
  "\x7b" ++ String.intercalate "," (fields.filterMap id) ++ "\x7d"

/-- JSON array. -/
def jarr (elems : List String) : String :=
  "[" ++ String.intercalate "," elems ++ "]"

/-- String member, omitted when empty (proto3 default). -/
def optStr (name s : String) : Option String :=
  if s = "" then none else some (jfield name (jstr s))

/-- Integer member, omitted when zero (proto3 default). -/
def optInt (name : String) (n : Int) : Option String :=
  if n = 0 then none else some (jfield name (toString n))

/-- Gain member, omitted when zero (proto3 default). -/
def optRat (name : String) (q : ℚ) : Option String :=
  if q = 0 then none else some (jfield name (toString q))

/-- Boolean member, omitted when false (proto3 default). -/
def optBool (name : String) (b : Bool) : Option String :=
  if b then some (jfield name "true") else none

/-- Enum value name of a fade shape. -/
def FadeShapeE.jsonName : FadeShapeE → String
  | .FADE_SHAPE_UNSPECIFIED => "FADE_SHAPE_UNSPECIFIED"
  | .LINEAR => "LINEAR"
  | .EQUAL_POWER => "EQUAL_POWER"

/-- Enum member, omitted at the default value (proto3 default). -/
def optShape (name : String) (s : FadeShapeE) : Option String :=
  if s = .FADE_SHAPE_UNSPECIFIED then none
  else some (jfield name (jstr s.jsonName))

/-- Submessage member, omitted when absent. -/
def optMsg (name : String) (o : Option String) : Option String :=
  o.map (jfield name)

/-- Array member, omitted when empty. -/
def optArr (name : String) (l : List String) : Option String :=
  if l = [] then none else some (jfield name (jarr l))

/-- Canonical JSON of a fade. -/
def serializeFade (f : Fade) : String :=
  jobj [optInt "duration_samples" f.duration_samples, optShape "shape" f.shape]

/-- Canonical JSON of a clip. -/
def serializeClip (c : Clip) : String :=
  jobj [optStr "id" c.id, optStr "media_id" c.media_id,
    optInt "start_in_media" c.start_in_media,
    optInt "start_in_timeline" c.start_in_timeline,
    optInt "duration" c.duration,
    optRat "gain_db" c.gain_db, optBool "muted" c.muted,
    optMsg "fade_in" (c.fade_in.map serializeFade),
    optMsg "fade_out" (c.fade_out.map serializeFade)]

/-- Canonical JSON of a track. -/
def serializeTrack (t : Track) : String :=
  jobj [optStr "id" t.id, optRat "gain_db" t.gain_db, optBool "muted" t.muted,
    optArr "clips" (t.clips.map serializeClip)]

/-- Canonical JSON of a media reference. -/
def serializeAudioRef (m : AudioRef) : String :=
  jobj [optStr "id" m.id, optStr "path" m.path,
    optInt "sample_rate" m.sample_rate, optInt "channels" m.channels]

/-- Canonical JSON of an EDL — the byte stream hashed by
`EdlStore::calculateRevision`. -/
def serializeEdl (e : Edl) : String :=
  jobj [optStr "id" e.id, optInt "sample_rate" e.sample_rate,
    optStr "revision" e.revision,
    optArr "media" (e.media.map serializeAudioRef),
    optArr "tracks" (e.tracks.map serializeTrack)]

/-- First `n` characters of a string (`std::string::substr(0, n)`). -/
def strTake (s : String) (n : Nat) : String := String.mk (s.data.take n)

/-- Revision of an EDL: hex SHA-256 of its canonical JSON, truncated to the
first 12 characters (`EdlStore::calculateRevision`, EdlStore.h:420-428). The
EDL is hashed as given — its `revision` field is not cleared first. -/
def calculateRevision (edl : Edl) : String :=
  strTake (calculateSHA256 (serializeEdl edl)) 12

/-! ### Media files and the format-manager environment.

The store and renderer probe the on-disk media through JUCE's format
manager; the environment is embedded as a finite list of media files (path,
rate, channels, length, decodability, and exact per-frame content). The
per-channel content is channel-uniform, matching the mono/constant fixtures
the claims are about. -/

/-- One on-disk audio file visible to the service. -/
structure MediaFile where
  path : String
  sampleRate : Int
  channels : Int
  lengthInSamples : Int
  readable : Bool
  samples : Int → ℚ

/-- The file system visible to the service. -/
def FileSystem := List MediaFile

/-- Look a file up by path (`juce::File` resolution). -/
def findFile (fs : FileSystem) (path : String) : Option MediaFile :=
  fs.find? (fun f => f.path = path)

/-- Whether the path resolves to a file (`File::existsAsFile`). -/
def existsAsFile (fs : FileSystem) (path : String) : Bool :=
  (findFile fs path).isSome

/-- Open a reader (`AudioFormatManager::createReaderFor`): the file must
exist and be decodable. -/
def createReaderFor (fs : FileSystem) (path : String) : Option MediaFile :=
  match findFile fs path with
  | some f => if f.readable then some f else none
  | none => none

/-! ### EdlStore (EdlStore.h / EdlStore.cpp).

Validation returns `none` on success and the first failing rule's message
otherwise, mirroring the `bool`-plus-out-parameter chain of the source. -/

/-- Resolve a media id (`EdlStore::findMediaById`, EdlStore.h:453-460). -/
def findMediaById (edl : Edl) (mediaId : String) : Option AudioRef :=
  edl.media.find? (fun m => m.id = mediaId)

/-- Media length via a fresh reader (`EdlStore::getMediaLengthInSamples`,
EdlStore.h:462-469); 0 when no reader can be opened. -/
def getMediaLengthInSamples (fs : FileSystem) (media : AudioRef) : Int :=
  match createReaderFor fs media.path with
  | none => 0
  | some r => r.lengthInSamples

/-- Sample-rate rule (`EdlStore::validateSampleRate`, EdlStore.h:266-272). -/
def validateSampleRate (sampleRate : Int) : Option String :=
  if sampleRate ≠ 44100 ∧ sampleRate ≠ 48000 ∧ sampleRate ≠ 96000 then
    some ("Sample rate must be 44100, 48000, or 96000 Hz, got "
      ++ toString sampleRate)
  else none

/-- Per-media rules, first failure wins (loop body of
`EdlStore::validateMedia`, EdlStore.h:280-321). -/
def validateMediaList (fs : FileSystem) (edlRate : Int) :
    List AudioRef → Option String
  | [] => none
  | m :: rest =>
    if m.id = "" then some "Media ID cannot be empty"
    else if m.path = "" then
      some ("Media path cannot be empty for media ID: " ++ m.id)
    else if ¬ existsAsFile fs m.path then
      some ("Media file not found: " ++ m.path)
    else
      match createReaderFor fs m.path with
      | none => some ("Unsupported or unreadable audio file: " ++ m.path)
      | some reader =>
        if m.sample_rate ≠ 0 ∧ m.sample_rate ≠ reader.sampleRate then
          some ("Media sample rate mismatch for " ++ m.id ++ ": specified "
            ++ toString m.sample_rate ++ " but file is "
            ++ toString reader.sampleRate)
        else if reader.sampleRate ≠ edlRate then
          some ("Media sample rate mismatch for " ++ m.id ++ ": file is "
            ++ toString reader.sampleRate ++ " but EDL requires "
            ++ toString edlRate)
        else validateMediaList fs edlRate rest

/-- Media rules (`EdlStore::validateMedia`, EdlStore.h:274-324). -/
def validateMedia (fs : FileSystem) (edl : Edl) : Option String :=
  if edl.media = [] then some "EDL must contain at least one media reference"
  else validateMediaList fs edl.sample_rate edl.media

/-- Fade rules (`EdlStore::validateFade`, EdlStore.h:406-418). -/
def validateFade (fade : Fade) (fadeType : String) : Option String :=
  if fade.duration_samples < 0 then
    some (fadeType ++ " duration must be non-negative")
  else if fade.shape ≠ .LINEAR ∧ fade.shape ≠ .EQUAL_POWER then
    some (fadeType ++ " shape must be LINEAR or EQUAL_POWER")
  else none

/-- Clip rules (`EdlStore::validateClip`, EdlStore.h:348-404). -/
def validateClip (fs : FileSystem) (clip : Clip) (edl : Edl) : Option String :=
  if clip.id = "" then some "Clip ID cannot be empty"
  else if clip.media_id = "" then
    some ("Clip media_id cannot be empty for clip: " ++ clip.id)
  else
    match findMediaById edl clip.media_id with
    | none => some ("Media not found for clip " ++ clip.id ++ ": "
        ++ clip.media_id)
    | some media =>
      if clip.start_in_media < 0 then
        some ("Clip start_in_media must be non-negative for clip: " ++ clip.id)
      else if clip.duration ≤ 0 then
        some ("Clip duration must be positive for clip: " ++ clip.id)
      else if clip.start_in_timeline < 0 then
        some ("Clip start_in_timeline must be non-negative for clip: "
          ++ clip.id)
      else if clip.start_in_media + clip.duration
          > getMediaLengthInSamples fs media then
        some ("Clip extends beyond media end for clip " ++ clip.id
          ++ ": start=" ++ toString clip.start_in_media
          ++ " duration=" ++ toString clip.duration
          ++ " but media length="
          ++ toString (getMediaLengthInSamples fs media))
      else
        match clip.fade_in.bind (fun f => validateFade f "fade_in") with
        | some err => some ("Invalid fade_in for clip " ++ clip.id ++ ": "
            ++ err)
        | none =>
          match clip.fade_out.bind (fun f => validateFade f "fade_out") with
          | some err => some ("Invalid fade_out for clip " ++ clip.id ++ ": "
              ++ err)
          | none => none

/-- First failing clip of a track's clip list. -/
def validateClipList (fs : FileSystem) (edl : Edl) :
    List Clip → Option String
  | [] => none
  | c :: rest =>
    match validateClip fs c edl with
    | some err => some err
    | none => validateClipList fs edl rest

/-- Per-track rules, first failure wins (loop body of
`EdlStore::validateTracks`, EdlStore.h:332-343). -/
def validateTrackList (fs : FileSystem) (edl : Edl) :
    List Track → Option String
  | [] => none
  | t :: rest =>
    if t.id = "" then some "Track ID cannot be empty"
    else
      match validateClipList fs edl t.clips with
      | some err => some err
      | none => validateTrackList fs edl rest

/-- Track rules (`EdlStore::validateTracks`, EdlStore.h:326-346). -/
def validateTracks (fs : FileSystem) (edl : Edl) : Option String :=
  if edl.tracks = [] then some "EDL must contain at least one track"
  else validateTrackList fs edl edl.tracks

/-- Full validation chain (`EdlStore::validateEdl`, EdlStore.h:241-264). -/
def validateEdl (fs : FileSystem) (edl : Edl) : Option String :=
  if edl.id = "" then some "EDL ID cannot be empty"
  else
    match validateSampleRate edl.sample_rate with
    | some err => some err
    | none =>
      match validateMedia fs edl with
      | some err => some err
      | none => validateTracks fs edl

/-- Stored snapshot (`EdlStore::Snapshot`). -/
structure Snapshot where
  edl : Edl
  revision : String
  track_count : Int
  clip_count : Int
deriving DecidableEq, Repr

/-- Clip total (`EdlStore::countTracksAndClips`, EdlStore.h:471-478). -/
def countClips (edl : Edl) : Int :=
  edl.tracks.foldl (fun acc t => acc + (t.clips.length : Int)) 0

/-- Validate-then-commit (`EdlStore::replace`, EdlStore.h:205-229): build
the snapshot from the submitted EDL, compute the revision over the EDL as
given, and overwrite the stored copy's `revision` field when the submitted
one was empty or different. -/
def replace (fs : FileSystem) (edl : Edl) : Except String Snapshot :=
  match validateEdl fs edl with
  | some error => .error error
  | none =>
    if edl.revision = "" ∨ edl.revision ≠ calculateRevision edl then
      .ok { edl := { edl with revision := calculateRevision edl },
            revision := calculateRevision edl,
            track_count := (edl.tracks.length : Int),
            clip_count := countClips edl }
    else
      .ok { edl := edl, revision := calculateRevision edl,
            track_count := (edl.tracks.length : Int),
            clip_count := countClips edl }

/-- Store contents after a `replace` call: the new snapshot on success, the
previous contents on validation failure. -/
def storeAfterReplace (fs : FileSystem) (current : Option Snapshot)
    (edl : Edl) : Option Snapshot :=
  match replace fs edl with
  | .ok s => some s
  | .error _ => current

/-- Snapshot copy returned by `EdlStore::get` (EdlStore.h:231-234). -/
def storeGet (current : Option Snapshot) : Option Snapshot := current

/-- Store states reachable from the initial empty store through `replace`
calls. -/
inductive Reachable (fs : FileSystem) : Option Snapshot → Prop
  | empty : Reachable fs none
  | step (st : Option Snapshot) (edl : Edl) (h : Reachable fs st) :
      Reachable fs (storeAfterReplace fs st edl)

/-! ### EdlCompiler (EdlCompiler.h, concatenated at grpc_server.cpp:704-780,
and EdlCompiler.cpp).

The decibel conversion `dbToLinear(db) = 10^(db/20)` is a transcendental
float computation; it enters the model as an explicit conversion parameter
`g`, so every statement below holds for the actual conversion. -/

/-- Compiled fade shape (`EdlCompiler::FadeShape`, grpc_server.cpp:722-725). -/
inductive FadeShape
  | Linear
  | EqualPower
deriving DecidableEq, Repr

/-- Compiled fade (`EdlCompiler::FadeSpec`, grpc_server.cpp:727-732); a
zero-length spec is the "empty" sentinel standing for an absent fade. -/
structure FadeSpec where
  length_samples : Int
  shape : FadeShape
deriving DecidableEq, Repr

/-- Emptiness test of a fade spec (`FadeSpec::isEmpty`,
grpc_server.cpp:731): `length_samples == 0`. -/
def FadeSpec.isEmpty (f : FadeSpec) : Bool := f.length_samples == 0

/-- The default-initialized `FadeSpec` an absent fade leaves in the
compiled clip (member initializers at grpc_server.cpp:728-729: length 0,
shape `Linear`). -/
def emptyFadeSpec : FadeSpec := { length_samples := 0, shape := .Linear }

/-- Compiled clip (`EdlCompiler::CompiledClip`, grpc_server.cpp:734-742);
the source clip and media stand in for the non-owning pointers. -/
structure CompiledClip where
  clip : Clip
  media : AudioRef
  t0 : Int
  t1 : Int
  gain_linear : ℚ
  fade_in : FadeSpec
  fade_out : FadeSpec
deriving DecidableEq, Repr

/-- Compiled track (`EdlCompiler::CompiledTrack`, grpc_server.cpp:744-748). -/
structure CompiledTrack where
  gain_linear : ℚ
  muted : Bool
  clips : List CompiledClip
deriving DecidableEq, Repr

/-- Compiled EDL (`EdlCompiler::CompiledEdl`, grpc_server.cpp:750-753). -/
structure CompiledEdl where
  sample_rate : Int
  tracks : List CompiledTrack
deriving DecidableEq, Repr

/-- Fade lowering (`EdlCompiler::convertFade`, EdlCompiler.cpp): unknown
shapes default to `Linear`. -/
def convertFade (fade : Fade) : FadeSpec :=
  { length_samples := fade.duration_samples,
    shape :=
      match fade.shape with
      | .LINEAR => .Linear
      | .EQUAL_POWER => .EqualPower
      | _ => .Linear }

/-- Stable insertion step for the timeline sort. -/
def insertByT0 (c : CompiledClip) : List CompiledClip → List CompiledClip
  | [] => [c]
  | x :: xs => if x.t0 ≤ c.t0 then x :: insertByT0 c xs else c :: x :: xs

/-- Stable sort of clips by `t0` (`EdlCompiler::sortClipsByTimeline`,
`std::stable_sort` with the `t0 <` comparator). -/
def sortClipsByTimeline (clips : List CompiledClip) : List CompiledClip :=
  clips.foldl (fun acc c => insertByT0 c acc) []

/-- Lower a track's clips in order; the first missing media aborts
(loop body of `EdlCompiler::compileTrack`). -/
def compileClips (g : ℚ → ℚ) (edl : Edl) :
    List Clip → Except String (List CompiledClip)
  | [] => .ok []
  | c :: rest =>
    match findMediaById edl c.media_id with
    | none => .error ("Media not found for clip " ++ c.id ++ ": "
        ++ c.media_id)
    | some media =>
      match compileClips g edl rest with
      | .error e => .error e
      | .ok cs =>
        .ok ({ clip := c, media := media,
               t0 := c.start_in_timeline,
               t1 := c.start_in_timeline + c.duration,
               gain_linear := g c.gain_db,
               fade_in := match c.fade_in with
                 | some f => convertFade f
                 | none => emptyFadeSpec,
               fade_out := match c.fade_out with
                 | some f => convertFade f
                 | none => emptyFadeSpec } :: cs)

/-- Track lowering (`EdlCompiler::compileTrack`). -/
def compileTrack (g : ℚ → ℚ) (track : Track) (edl : Edl) :
    Except String CompiledTrack :=
  match compileClips g edl track.clips with
  | .error e => .error e
  | .ok cs =>
    .ok { gain_linear := g track.gain_db, muted := track.muted,
          clips := sortClipsByTimeline cs }

/-- Lower all tracks in order. -/
def compileTracks (g : ℚ → ℚ) (edl : Edl) :
    List Track → Except String (List CompiledTrack)
  | [] => .ok []
  | t :: rest =>
    match compileTrack g t edl with
    | .error e => .error e
    | .ok ct =>
      match compileTracks g edl rest with
      | .error e => .error e
      | .ok cts => .ok (ct :: cts)

/-- Snapshot lowering (`EdlCompiler::compile`). -/
def compileEdl (g : ℚ → ℚ) (snapshot : Snapshot) : Except String CompiledEdl :=
  match compileTracks g snapshot.edl snapshot.edl.tracks with
  | .error e => .error e
  | .ok ts => .ok { sample_rate := snapshot.edl.sample_rate, tracks := ts }

/-! ### EdlRenderer (EdlRenderer.cpp).

Buffers are per-channel sample functions `Nat → ℚ`; all channels of a
buffer carry the same contents (media fixtures here are channel-uniform),
while channel counts are tracked separately for the geometry claims. The
equal-power fade curve `sqrt` enters as the parameter `sq`. -/

/-- Reader lookup (`EdlRenderer::getReader`, EdlRenderer.cpp:749-764); the
per-path cache returns the same reader the format manager would open. -/
def getReader (fs : FileSystem) (filePath : String) : Option MediaFile :=
  createReaderFor fs filePath

/-- Block read of a reader into a buffer region
(`juce::AudioFormatReader::read`; frames past the end read as zero). -/
def readerRead (reader : MediaFile) (buf : Nat → ℚ)
    (bufferStart readSamples : Nat) (sourceStart : Int) : Nat → ℚ :=
  fun i =>
    if bufferStart ≤ i ∧ i < bufferStart + readSamples then
      (if sourceStart + ((i : Int) - (bufferStart : Int))
          < reader.lengthInSamples then
        reader.samples (sourceStart + ((i : Int) - (bufferStart : Int)))
      else 0)
    else buf i

/-- Multiply a buffer region by a gain
(`juce::FloatVectorOperations::multiply` on a write pointer at an offset). -/
def multiplyRegion (buf : Nat → ℚ) (start len : Nat) (gain : ℚ) : Nat → ℚ :=
  fun i => if start ≤ i ∧ i < start + len then gain * buf i else buf i

/-- Whole-buffer gain (`EdlRenderer::applyGain`, EdlRenderer.cpp:679-684). -/
def applyGain (buf : Nat → ℚ) (numSamples : Nat) (gain : ℚ) : Nat → ℚ :=
  multiplyRegion buf 0 numSamples gain

/-- Fade curve (`EdlRenderer::calculateFadeGain`, EdlRenderer.cpp:728-737). -/
def calculateFadeGain (sq : ℚ → ℚ) : FadeShape → ℚ → ℚ
  | .Linear, position => position
  | .EqualPower, position => sq position

/-- Fade application (`EdlRenderer::applyFade`, EdlRenderer.cpp:686-726).
Buffer offsets are taken relative to `renderStart`, exactly as the source
does — including when that disagrees with where the samples were written. -/
def applyFade (sq : ℚ → ℚ) (buf : Nat → ℚ) (fade : FadeSpec)
    (clipStart clipEnd renderStart renderEnd : Int) (isFadeIn : Bool) :
    Nat → ℚ :=
  let fadeStart := if isFadeIn then clipStart else clipEnd - fade.length_samples
  let fadeEnd := if isFadeIn then clipStart + fade.length_samples else clipEnd
  let effectiveStart := max fadeStart renderStart
  let effectiveEnd := min fadeEnd renderEnd
  if effectiveStart ≥ effectiveEnd then buf
  else
    let bufferStart := effectiveStart - renderStart
    fun i =>
      if bufferStart ≤ (i : Int) ∧
          (i : Int) < bufferStart + (effectiveEnd - effectiveStart) then
        let samplePos : Int := effectiveStart + ((i : Int) - bufferStart)
        let fadePos0 : ℚ := ((samplePos - fadeStart : Int) : ℚ)
          / ((fade.length_samples : Int) : ℚ)
        let fadePos1 : ℚ := if isFadeIn then fadePos0 else 1 - fadePos0
        let fadePos : ℚ := max 0 (min 1 fadePos1)
        calculateFadeGain sq fade.shape fadePos * buf i
      else buf i

/-- Clip rendering into a cleared clip buffer
(`EdlRenderer::renderClip`, EdlRenderer.cpp:620-677). -/
def renderClip (fs : FileSystem) (sq : ℚ → ℚ) (clip : CompiledClip)
    (rangeStart rangeEnd : Int) (buf : Nat → ℚ) (bufNumSamples : Nat)
    (bufferOffset : Int) : Nat → ℚ :=
  let clipStart := max clip.t0 rangeStart
  let clipEnd := min clip.t1 rangeEnd
  if clipStart ≥ clipEnd then buf
  else
    match getReader fs clip.media.path with
    | none => buf
    | some reader =>
      let sourceStart := clip.clip.start_in_media + (clipStart - clip.t0)
      let sourceSamples := clipEnd - clipStart
      let bufferStart := clipStart - rangeStart + bufferOffset
      if 0 ≤ sourceStart ∧ sourceStart < reader.lengthInSamples ∧
          0 < sourceSamples ∧ 0 ≤ bufferStart then
        let readSamples := min sourceSamples ((bufNumSamples : Int) - bufferStart)
        if 0 < readSamples then
          let buf1 := readerRead reader buf bufferStart.toNat
            readSamples.toNat sourceStart
          let buf2 := if clip.gain_linear ≠ 1 then
              multiplyRegion buf1 bufferStart.toNat readSamples.toNat
                clip.gain_linear
            else buf1
          let buf3 := if ¬ clip.fade_in.isEmpty then
              applyFade sq buf2 clip.fade_in clip.t0 clip.t1
                clipStart clipEnd true
            else buf2
          if ¬ clip.fade_out.isEmpty then
            applyFade sq buf3 clip.fade_out clip.t0 clip.t1
              clipStart clipEnd false
          else buf3
        else buf
      else buf

/-- Clips intersecting a block (`EdlRenderer::getClipsInRange`,
EdlRenderer.cpp:807-818). -/
def getClipsInRange (track : CompiledTrack) (rangeStart rangeEnd : Int) :
    List CompiledClip :=
  track.clips.filter (fun c => decide (rangeStart < c.t1 ∧ c.t0 < rangeEnd))

/-- Channel-wise mix accumulation (`EdlRenderer::addToMixBuffer`,
EdlRenderer.cpp:739-747); both buffers hold `numSamples` samples. -/
def addToMixBuffer (mix clipBuf : Nat → ℚ) (numSamples : Nat) : Nat → ℚ :=
  fun i => if i < numSamples then mix i + clipBuf i else mix i

/-- Track rendering into the block mix buffer (`EdlRenderer::renderTrack`,
EdlRenderer.cpp:590-618). -/
def renderTrack (fs : FileSystem) (sq : ℚ → ℚ) (track : CompiledTrack)
    (rangeStart rangeEnd : Int) (mix : Nat → ℚ) (blockSamples : Nat)
    (bufferOffset : Int) : Nat → ℚ :=
  (getClipsInRange track rangeStart rangeEnd).foldl
    (fun mixAcc clip =>
      let clipBuf : Nat → ℚ := fun _ => 0
      let clipBuf := renderClip fs sq clip rangeStart rangeEnd clipBuf
        blockSamples bufferOffset
      let clipBuf := if track.gain_linear ≠ 1 then
          applyGain clipBuf blockSamples track.gain_linear
        else clipBuf
      addToMixBuffer mixAcc clipBuf blockSamples)
    mix

/-- Block loop of `EdlRenderer::renderTimeRange` (EdlRenderer.cpp:549-584),
with the fuel bounding the iteration count; `totalSamples` iterations
always suffice for a positive block size. -/
def renderBlocks (fs : FileSystem) (sq : ℚ → ℚ) (compiled : CompiledEdl)
    (blockSize : Nat) (rangeStart : Int) (totalSamples : Nat) :
    Nat → Nat → (Nat → ℚ) → List ℚ → (Nat → ℚ) × List ℚ
  | 0, _, out, progress => (out, progress)
  | fuel + 1, samplesRendered, out, progress =>
    if samplesRendered < totalSamples ∧ 0 < blockSize then
      let blockSamples := min blockSize (totalSamples - samplesRendered)
      let blockStart : Int := rangeStart + (samplesRendered : Int)
      let blockEnd : Int := blockStart + (blockSamples : Int)
      let mix : Nat → ℚ := fun _ => 0
      let mix := compiled.tracks.foldl
        (fun m t => if ¬ t.muted then
            renderTrack fs sq t blockStart blockEnd m blockSamples 0
          else m) mix
      let out' : Nat → ℚ := fun i =>
        if samplesRendered ≤ i ∧ i < samplesRendered + blockSamples then
          mix (i - samplesRendered)
        else out i
      let rendered' := samplesRendered + blockSamples
      renderBlocks fs sq compiled blockSize rangeStart totalSamples
        fuel rendered' out'
        (progress ++ [(rendered' : ℚ) / (totalSamples : ℚ)])
    else (out, progress)

/-- Output channel count (the `maxChannels` loop of
`EdlRenderer::renderTimeRange`, EdlRenderer.cpp:534-542): stereo minimum,
widened by the media referenced by compiled clips. -/
def maxChannelsOf (compiled : CompiledEdl) : Int :=
  compiled.tracks.foldl
    (fun acc t => t.clips.foldl
      (fun acc2 c => if c.media.channels > acc2 then c.media.channels else acc2)
      acc)
    2

/-- Rendered output: channel count, frame count, and per-channel contents. -/
structure RenderedBuffer where
  numChannels : Int
  numSamples : Nat
  data : Nat → ℚ

/-- Window render (`EdlRenderer::renderTimeRange`, EdlRenderer.cpp:519-588),
also yielding the progress fractions reported block by block. -/
def renderTimeRange (fs : FileSystem) (sq : ℚ → ℚ) (compiled : CompiledEdl)
    (blockSize : Nat) (range : TimeRange) :
    Except String (RenderedBuffer × List ℚ) :=
  if range.duration_samples ≤ 0 then
    .error "Invalid render range: duration must be positive"
  else
    let totalSamples := range.duration_samples.toNat
    let res := renderBlocks fs sq compiled blockSize range.start_samples
      totalSamples totalSamples 0 (fun _ => 0) []
    .ok ({ numChannels := maxChannelsOf compiled,
           numSamples := totalSamples, data := res.1 }, res.2)

/-- The fixed block size (`EdlRenderer::blockSize_`, EdlRenderer.h:892). -/
def blockSize_ : Nat := 4096

/-- Buffer render entry point (`EdlRenderer::renderToBuffer`,
EdlRenderer.cpp:507-517). -/
def renderToBuffer (fs : FileSystem) (sq : ℚ → ℚ) (compiled : CompiledEdl)
    (range : TimeRange) : Except String (RenderedBuffer × List ℚ) :=
  renderTimeRange fs sq compiled blockSize_ range

/-- WAV render (`EdlRenderer::renderToWav`, EdlRenderer.cpp:492-505): the
buffer render, then `writeWavFile`, whose disk outcome is the environment
parameter `wavWriteOk`/`wavError`. Progress fractions were already reported
by the buffer render. -/
def renderToWav (fs : FileSystem) (sq : ℚ → ℚ) (compiled : CompiledEdl)
    (range : TimeRange) (wavWriteOk : Bool) (wavError : String) :
    Except String RenderedBuffer × List ℚ :=
  match renderTimeRange fs sq compiled blockSize_ range with
  | .error e => (.error e, [])
  | .ok (buf, progress) =>
    (if wavWriteOk then .ok buf else .error wavError, progress)

/-! ### Engine front-end (grpc_server.cpp). -/

/-- RPC status codes used by the handlers. -/
inductive StatusCode
  | OK
  | INVALID_ARGUMENT
  | NOT_FOUND
  | INTERNAL
deriving DecidableEq, Repr

/-- Events written to subscriber / render streams. -/
inductive EngineEvent
  | EdlError (edl_id reason : String)
  | EdlApplied (edl_id revision : String) (track_count clip_count : Int)
  | Progress (fraction : ℚ)
  | Complete (out_path : String)
deriving DecidableEq, Repr

/-- Whether an event is an `EdlError`. -/
def EngineEvent.isEdlError : EngineEvent → Bool
  | .EdlError _ _ => true
  | _ => false

/-- Whether an event is a `Complete`. -/
def EngineEvent.isComplete : EngineEvent → Bool
  | .Complete _ => true
  | _ => false

/-- `RenderEdlWindowRequest` wire message. -/
structure RenderEdlWindowRequest where
  edl_id : String
  range : TimeRange
  out_path : String
  bit_depth : Int
deriving DecidableEq, Repr

/-- The `UpdateEdl` handler (grpc_server.cpp:416-465): status, broadcast
events, and the store contents after the call. -/
def updateEdl (fs : FileSystem) (current : Option Snapshot) (edl : Edl) :
    StatusCode × List EngineEvent × Option Snapshot :=
  match replace fs edl with
  | .error error => (.INVALID_ARGUMENT, [.EdlError edl.id error], current)
  | .ok snap =>
    (.OK, [.EdlApplied snap.edl.id snap.revision snap.track_count
      snap.clip_count], some snap)

/-- The `RenderEdlWindow` handler (grpc_server.cpp:467-574): status and the
events written to the response stream, in order. `g` is the decibel
conversion, `sq` the equal-power curve, and `wavWriteOk`/`wavError` the
disk outcome of the WAV write. -/
def renderEdlWindow (fs : FileSystem) (g sq : ℚ → ℚ)
    (current : Option Snapshot) (req : RenderEdlWindowRequest)
    (wavWriteOk : Bool) (wavError : String) : StatusCode × List EngineEvent :=
  match storeGet current with
  | none => (.NOT_FOUND, [.EdlError req.edl_id "No EDL currently loaded"])
  | some snap =>
    if snap.edl.id ≠ req.edl_id then
      (.NOT_FOUND, [.EdlError req.edl_id ("EDL ID mismatch: requested '"
        ++ req.edl_id ++ "' but current is '" ++ snap.edl.id ++ "'")])
    else
      match compileEdl g snap with
      | .error err =>
        (.INTERNAL, [.EdlError req.edl_id ("Compilation failed: " ++ err)])
      | .ok compiled =>
        match renderToWav fs sq compiled req.range wavWriteOk wavError with
        | (.error _, progress) =>
          (.INTERNAL, progress.map EngineEvent.Progress)
        | (.ok _, progress) =>
          (.OK, progress.map EngineEvent.Progress
            ++ [.Complete req.out_path])

/-! ### Observation helpers and spec-side definitions. -/

/-- Data of a render result at a frame (0 when the render failed). -/
def renderData (r : Except String (RenderedBuffer × List ℚ)) (i : Nat) : ℚ :=
  match r with
  | .ok (buf, _) => buf.data i
  | .error _ => 0

/-- Whether a render succeeded. -/
def renderOk (r : Except String (RenderedBuffer × List ℚ)) : Bool :=
  match r with
  | .ok _ => true
  | .error _ => false

/-- Channel count of a render result (0 when the render failed). -/
def renderChannels (r : Except String (RenderedBuffer × List ℚ)) : Int :=
  match r with
  | .ok (buf, _) => buf.numChannels
  | .error _ => 0

/-- Frame count of a render result (0 when the render failed). -/
def renderFrames (r : Except String (RenderedBuffer × List ℚ)) : Nat :=
  match r with
  | .ok (buf, _) => buf.numSamples
  | .error _ => 0

/-- Spec-side: the claim's "EDL with its revision field cleared". -/
def clearRevision (e : Edl) : Edl := { e with revision := "" }

/-- Spec-side: the lowercase hex alphabet. -/
def hexDigits : List Char := "0123456789abcdef".data

/-- Spec-side: the claim's channel formula `max(2, max over ALL media
entries of media.channels)`. -/
def specChannelsAllMedia (e : Edl) : Int :=
  e.media.foldl (fun a m => max a m.channels) 2

/-- Spec-side: `max(2, ...)` over the media actually referenced by the
compiled clips, flattened across tracks. -/
def referencedChannelsMax (compiled : CompiledEdl) : Int :=
  (compiled.tracks.flatMap (fun t => t.clips)).foldl
    (fun a c => max a c.media.channels) 2

/-- Spec-side: a compiled EDL with its muted tracks removed. -/
def elideMutedTracks (compiled : CompiledEdl) : CompiledEdl :=
  { compiled with tracks := compiled.tracks.filter (fun t => ¬ t.muted) }

/-- Spec-side: a compiled clip with its source clip's muted flag forced. -/
def setClipMuted (b : Bool) (c : CompiledClip) : CompiledClip :=
  { c with clip := { c.clip with muted := b } }

/-! ### Concrete fixtures used by the witnesses and counterexamples. -/

/-- One readable 48 kHz mono file of constant-1 samples, one second long. -/
def fsR : FileSystem := [⟨"/f", 48000, 1, 48000, true, fun _ => 1⟩]

/-- Minimal valid EDL over `fsR`, submitted with an empty revision. -/
def edlR : Edl :=
  { id := "e", sample_rate := 48000, revision := "",
    media := [⟨"m", "/f", 0, 1⟩],
    tracks := [⟨"t", 0, false, []⟩] }

/-- The same EDL submitted with a client-supplied revision. -/
def edlR1 : Edl := { edlR with revision := "abc" }

/-- Snapshot committed by `replace fsR edlR`. -/
def snapR : Snapshot := (replace fsR edlR).toOption.getD ⟨edlR, "", 0, 0⟩

/-- Invalid EDL (empty id) used to exercise the failure path. -/
def edlBad : Edl := { edlR with id := "" }

/-- Constant-1 mono fixture for the fade scenario. -/
def fs9 : FileSystem := [⟨"/one", 48000, 1, 8, true, fun _ => 1⟩]

/-- Media reference of the fade scenario. -/
def media9 : AudioRef := ⟨"m", "/one", 0, 1⟩

/-- Mono clip at timeline 0 with a 4-sample linear fade-in over a
constant-1 source; 0 dB gains compile to `gain_linear = 1`. -/
def cclip9 : CompiledClip :=
  ⟨⟨"c", "m", 0, 0, 8, 0, false, some ⟨4, .LINEAR⟩, none⟩, media9, 0, 8, 1,
   ⟨4, .Linear⟩, emptyFadeSpec⟩

/-- Compiled EDL of the fade scenario. -/
def cedl9 : CompiledEdl := ⟨48000, [⟨1, false, [cclip9]⟩]⟩

/-- Constant-1 mono fixture for the block-size scenario. -/
def fs8 : FileSystem := [⟨"/one8", 48000, 1, 2048, true, fun _ => 1⟩]

/-- Clip on frames `[1024, 2048)` with a 1024-sample linear fade-in: it
starts mid-block at block size 4096 but block-aligned at block size 1024. -/
def cclip8 : CompiledClip :=
  ⟨⟨"c", "m", 0, 1024, 1024, 0, false, some ⟨1024, .LINEAR⟩, none⟩,
   ⟨"m", "/one8", 0, 1⟩, 1024, 2048, 1, ⟨1024, .Linear⟩, emptyFadeSpec⟩

/-- Compiled EDL of the block-size scenario. -/
def cedl8 : CompiledEdl := ⟨48000, [⟨1, false, [cclip8]⟩]⟩

/-- The render window of the block-size scenario. -/
def range8 : TimeRange := ⟨0, 2048⟩

/-- Constant-1 mono fixture for the muted-clip scenario. -/
def fs4 : FileSystem := [⟨"/one4", 48000, 1, 8, true, fun _ => 1⟩]

/-- Compiled clip whose source clip is muted, over constant-1 media. -/
def cclip4 : CompiledClip :=
  ⟨⟨"c", "m", 0, 0, 8, 0, true, none, none⟩, ⟨"m", "/one4", 0, 1⟩, 0, 8, 1,
   emptyFadeSpec, emptyFadeSpec⟩

/-- Compiled EDL with an unmuted track holding only the muted clip. -/
def cedl4 : CompiledEdl := ⟨48000, [⟨1, false, [cclip4]⟩]⟩

/-- Compiled clip whose media path resolves to no reader. -/
def cclip5 : CompiledClip :=
  ⟨⟨"c", "m", 0, 0, 8, 0, false, none, none⟩, ⟨"m", "/gone", 0, 1⟩, 0, 8, 1,
   emptyFadeSpec, emptyFadeSpec⟩

/-- Compiled EDL referencing only the unreadable path. -/
def cedl5 : CompiledEdl := ⟨48000, [⟨1, false, [cclip5]⟩]⟩

/-- File system in which `/gone` resolves to nothing. -/
def fs5 : FileSystem := []

/-- Fixture with a referenced 1-channel file and an unreferenced 4-channel
file, both valid 48 kHz media. -/
def fs6 : FileSystem :=
  [⟨"/a6", 48000, 1, 8, true, fun _ => 1⟩,
   ⟨"/b6", 48000, 4, 8, true, fun _ => 0⟩]

/-- Valid EDL whose media list contains a 4-channel entry no clip uses. -/
def edl6 : Edl :=
  { id := "e6", sample_rate := 48000, revision := "",
    media := [⟨"m1", "/a6", 0, 1⟩, ⟨"m2", "/b6", 0, 4⟩],
    tracks := [⟨"t", 0, false, [⟨"c", "m1", 0, 0, 8, 0, false, none, none⟩]⟩] }

/-- Snapshot committed by `replace fs6 edl6`. -/
def snap6 : Snapshot := (replace fs6 edl6).toOption.getD ⟨edl6, "", 0, 0⟩

/-- Compilation of `snap6` (0 dB gains compile to 1). -/
def cedl6 : CompiledEdl :=
  (compileEdl (fun _ => 1) snap6).toOption.getD ⟨0, []⟩

/-- Spec scenario 1 fixture: one media, one track, one clip of 24000
frames at 48 kHz. -/
def fs3 : FileSystem := [⟨"/fix3", 48000, 1, 24000, true, fun _ => 1⟩]

/-- The spec scenario 1 EDL. -/
def edl3 : Edl :=
  { id := "demo", sample_rate := 48000, revision := "",
    media := [⟨"m1", "/fix3", 48000, 1⟩],
    tracks := [⟨"t1", 0, false,
      [⟨"c1", "m1", 0, 0, 24000, 0, false, none, none⟩]⟩] }

/-- Snapshot committed by `replace fs3 edl3`. -/
def snap3 : Snapshot := (replace fs3 edl3).toOption.getD ⟨edl3, "", 0, 0⟩

/-- The zero-duration render request against `snap3`. -/
def req3 : RenderEdlWindowRequest := ⟨"demo", ⟨0, 0⟩, "/out.wav", 16⟩

/-- Compilation of `snap3` (0 dB gains compile to 1). -/
def cedl3 : CompiledEdl :=
  (compileEdl (fun _ => 1) snap3).toOption.getD ⟨0, []⟩

/-! ### Claim theorems.

Mathlib marks the core `Rat` arithmetic irreducible; the concrete render
and revision evaluations below need it reducible again so that `decide`
can compute with exact rationals. -/

section

attribute [local semireducible] Rat.add Rat.mul Rat.inv Rat.sub

set_option maxRecDepth 40000

/-- C9: a mono clip at timeline position 0 with `fade_in{duration=4,
shape=Linear}` over a constant-1.0 source renders the range `[0, 4)` to
exactly `[0.0, 0.25, 0.5, 0.75]` — the linear fade gain at sample `s` is
`(s - fade_start) / fade_duration`. -/
theorem c9_linear_fade_in_first_four :
    renderOk (renderToBuffer fs9 id cedl9 ⟨0, 4⟩) = true ∧
    renderData (renderToBuffer fs9 id cedl9 ⟨0, 4⟩) 0 = 0 ∧
    renderData (renderToBuffer fs9 id cedl9 ⟨0, 4⟩) 1 = 1 / 4 ∧
    renderData (renderToBuffer fs9 id cedl9 ⟨0, 4⟩) 2 = 1 / 2 ∧
    renderData (renderToBuffer fs9 id cedl9 ⟨0, 4⟩) 3 = 3 / 4 := by
  decide

/-- C8: block-size independence fails. For a clip on `[1024, 2048)` with a
1024-sample linear fade-in over constant-1 media, rendering `[0, 2048)`
with block size 1024 leaves frame 1024 faded to 0, while block sizes 4096
and 16384 leave it unfaded at 1: `applyFade` offsets the buffer by
`renderStart = clipStart` although the samples were written at offset
`clipStart - blockStart`, so a clip starting mid-block is faded at the
wrong offset. -/
theorem c8_block_size_dependence :
    renderData (renderTimeRange fs8 id cedl8 1024 range8) 1024 = 0 ∧
    renderData (renderTimeRange fs8 id cedl8 4096 range8) 1024 = 1 ∧
    renderData (renderTimeRange fs8 id cedl8 16384 range8) 1024 = 1 ∧
    renderData (renderTimeRange fs8 id cedl8 1024 range8) 1024 ≠
      renderData (renderTimeRange fs8 id cedl8 4096 range8) 1024 := by
  decide

/-- C4 counterexample: a muted clip does not contribute zero — on an
unmuted track whose only clip is muted, over constant-1 media, frame 0 of
the render is 1, not 0: neither the compiler nor the renderer ever reads
the clip's muted flag. -/
theorem c4_muted_clip_counterexample :
    cclip4.clip.muted = true ∧
    renderData (renderToBuffer fs4 id cedl4 ⟨0, 4⟩) 0 = 1 ∧
    renderData (renderToBuffer fs4 id cedl4 ⟨0, 4⟩) 0 ≠ 0 := by
  decide

/-- C5 counterexample: with no reader obtainable for the only referenced
path, the render still completes successfully (the failure is only logged
and the clip skipped), refuting "fails with an Internal error". -/
theorem c5_missing_reader_counterexample :
    (getReader fs5 cclip5.media.path).isSome = false ∧
    renderOk (renderToBuffer fs5 id cedl5 ⟨0, 4⟩) = true := by
  decide

/-- C6 counterexample: with a 4-channel media entry that no clip
references, the rendered buffer has 2 channels while the claimed formula
`max(2, max over all media entries)` gives 4. -/
theorem c6_channels_counterexample :
    (replace fs6 edl6).toOption = some snap6 ∧
    (compileEdl (fun _ => 1) snap6).toOption = some cedl6 ∧
    renderChannels (renderToBuffer fs6 id cedl6 ⟨0, 4⟩) = 2 ∧
    specChannelsAllMedia edl6 = 4 ∧
    renderChannels (renderToBuffer fs6 id cedl6 ⟨0, 4⟩) ≠
      specChannelsAllMedia edl6 := by
  decide

/-- C3 counterexample: with the spec-scenario EDL loaded and the id
matching, a zero-duration `RenderEdlWindow` returns `INTERNAL` (not
`INVALID_ARGUMENT`) and writes no events at all — in particular not the
claimed single `EdlError`. -/
theorem c3_zero_duration_counterexample :
    (replace fs3 edl3).toOption = some snap3 ∧
    snap3.edl.id = req3.edl_id ∧
    req3.range.duration_samples = 0 ∧
    (renderEdlWindow fs3 (fun _ => 1) id (some snap3) req3 true "").1 =
      .INTERNAL ∧
    (renderEdlWindow fs3 (fun _ => 1) id (some snap3) req3 true "").2 =
      [] := by
  decide

/-- C1 counterexample: the EDL `edlR1`, submitted with revision `"abc"`,
is accepted, but its snapshot revision hashes the JSON including that
revision field and so differs from the first 12 hex characters of the
SHA-256 of the JSON with the revision cleared. -/
theorem c1_revision_not_cleared_counterexample :
    (replace fsR edlR1).toOption.map Snapshot.revision =
      some "2b0bdd967501" ∧
    strTake (calculateSHA256 (serializeEdl (clearRevision edlR1))) 12 =
      "b5ca88e79598" ∧
    (replace fsR edlR1).toOption.map Snapshot.revision ≠
      some (strTake (calculateSHA256 (serializeEdl (clearRevision edlR1)))
        12) := by
  decide

/-- C2 counterexample: replaying the stored EDL is not revision-idempotent.
After `replace fsR edlR` commits revision `b5ca88e79598`, feeding the
stored EDL (whose revision field now holds that value) back into `replace`
hashes a different JSON and yields revision `79a3cd9a2f41`. -/
theorem c2_replay_revision_counterexample :
    (replace fsR edlR).toOption = some snapR ∧
    snapR.revision = "b5ca88e79598" ∧
    (replace fsR snapR.edl).toOption.map Snapshot.revision =
      some "79a3cd9a2f41" ∧
    (replace fsR snapR.edl).toOption.map Snapshot.revision ≠
      some snapR.revision := by
  decide

/-! #### Helper lemmas. -/

/-- Every hex digit produced by `hexChar` is lowercase hex. -/
theorem hexChar_mem_hexDigits (n : Nat) : hexChar n ∈ hexDigits := by
  unfold hexChar
  by_cases h1 : n < 10
  · rw [if_pos h1]
    interval_cases n <;> decide
  · rw [if_neg h1]
    by_cases h2 : n < 16
    · rw [if_pos h2]
      have h3 : 10 ≤ n := Nat.not_lt.mp h1
      interval_cases n <;> decide
    · rw [if_neg h2]
      decide

/-- Characters of a hex dump are lowercase hex digits. -/
theorem bytesToHex_mem (bs : List Nat) :
    ∀ c ∈ (bytesToHex bs).data, c ∈ hexDigits := by
  unfold bytesToHex
  induction bs with
  | nil => intro c hc; simp at hc
  | cons b rest ih =>
    intro c hc
    simp only [List.foldr_cons] at hc
    rcases List.mem_append.mp hc with h | h
    · unfold byteHex at h
      simp only [List.mem_cons, List.not_mem_nil, or_false] at h
      rcases h with rfl | rfl <;> exact hexChar_mem_hexDigits _
    · exact ih c h

/-- Length of a hex dump. -/
theorem bytesToHex_length (bs : List Nat) :
    (bytesToHex bs).data.length = 2 * bs.length := by
  unfold bytesToHex
  show (bs.foldr (fun b acc => byteHex b ++ acc) []).length = 2 * bs.length
  induction bs with
  | nil => rfl
  | cons b rest ih =>
    simp only [List.foldr_cons, List.length_append, List.length_cons, ih]
    show (byteHex b).length + 2 * rest.length = 2 * (rest.length + 1)
    unfold byteHex
    simp only [List.length_cons, List.length_nil]
    omega

/-- A SHA-256 digest is 32 bytes. -/
theorem sha256Bytes_length (msg : List Nat) : (sha256Bytes msg).length = 32 := by
  unfold sha256Bytes stateBytes u32be
  simp

/-- The hex SHA-256 of a string has 64 characters. -/
theorem calculateSHA256_length (s : String) :
    (calculateSHA256 s).data.length = 64 := by
  unfold calculateSHA256
  rw [bytesToHex_length, sha256Bytes_length]

/-- Every successful `replace` commits `calculateRevision` of the submitted
EDL as the snapshot revision. -/
theorem replace_ok_revision (fs : FileSystem) (edl : Edl) (s : Snapshot)
    (h : replace fs edl = .ok s) : s.revision = calculateRevision edl := by
  unfold replace at h
  cases hv : validateEdl fs edl with
  | some msg => rw [hv] at h; simp at h
  | none =>
    rw [hv] at h
    by_cases hc : edl.revision = "" ∨ edl.revision ≠ calculateRevision edl
    · rw [if_pos hc] at h
      injection h with h2
      rw [← h2]
    · rw [if_neg hc] at h
      injection h with h2
      rw [← h2]

/-- Every successful `replace` leaves the committed revision inside the
stored EDL equal to the snapshot revision. -/
theorem replace_ok_revision_invariant (fs : FileSystem) (edl : Edl)
    (s : Snapshot) (h : replace fs edl = .ok s) :
    s.edl.revision = s.revision := by
  unfold replace at h
  cases hv : validateEdl fs edl with
  | some msg => rw [hv] at h; simp at h
  | none =>
    rw [hv] at h
    by_cases hc : edl.revision = "" ∨ edl.revision ≠ calculateRevision edl
    · rw [if_pos hc] at h
      injection h with h2
      rw [← h2]
    · rw [if_neg hc] at h
      injection h with h2
      push_neg at hc
      rw [← h2]
      exact hc.2

/-- Folding the non-muted-guarded step over the tracks filtered to the
non-muted ones equals folding it over all tracks. -/
theorem mix_foldl_filter (step : (Nat → ℚ) → CompiledTrack → Nat → ℚ) :
    ∀ (l : List CompiledTrack) (m : Nat → ℚ),
      (l.filter (fun t => ¬ t.muted)).foldl
          (fun acc t => if ¬ t.muted then step acc t else acc) m
        = l.foldl (fun acc t => if ¬ t.muted then step acc t else acc) m := by
  intro l
  induction l with
  | nil => intro m; rfl
  | cons t rest ih =>
    intro m
    by_cases h : t.muted
    · simp only [List.filter_cons, h]
      simpa [h] using ih m
    · simp only [List.filter_cons, h]
      simpa [h] using ih (step m t)

/-- The block loop ignores muted tracks: eliding them changes nothing. -/
theorem renderBlocks_elide (fs : FileSystem) (sq : ℚ → ℚ)
    (compiled : CompiledEdl) (bs : Nat) (rs : Int) (total : Nat) :
    ∀ (fuel sr : Nat) (out : Nat → ℚ) (prog : List ℚ),
      renderBlocks fs sq (elideMutedTracks compiled) bs rs total fuel sr out
          prog
        = renderBlocks fs sq compiled bs rs total fuel sr out prog := by
  intro fuel
  induction fuel with
  | zero => intros; rfl
  | succ n ih =>
    intro sr out prog
    simp only [renderBlocks]
    by_cases h : sr < total ∧ 0 < bs
    · rw [if_pos h, if_pos h]
      simp only [elideMutedTracks]
      rw [mix_foldl_filter]
      exact ih _ _ _
    · rw [if_neg h, if_neg h]

/-- Channel-widening step written as a `max`. -/
theorem if_gt_else_eq_max (a x : Int) :
    (if x > a then x else a) = max a x := by
  rcases le_or_lt x a with h | h
  · rw [if_neg (not_lt.mpr h), max_eq_left h]
  · rw [if_pos h, max_eq_right h.le]

/-- Folding over the flattened clips equals the nested fold. -/
theorem foldl_flatMap_clips (f : Int → CompiledClip → Int) :
    ∀ (l : List CompiledTrack) (a : Int),
      (l.flatMap (fun t => t.clips)).foldl f a
        = l.foldl (fun acc t => t.clips.foldl f acc) a := by
  intro l
  induction l with
  | nil => intro a; rfl
  | cons t rest ih => intro a; simp [List.flatMap_cons, List.foldl_append, ih]

/-- The renderer's channel loop computes the `max` over referenced media. -/
theorem maxChannelsOf_eq (c : CompiledEdl) :
    maxChannelsOf c = referencedChannelsMax c := by
  unfold maxChannelsOf referencedChannelsMax
  rw [foldl_flatMap_clips]
  have hfun : (fun (a2 : Int) (cl : CompiledClip) =>
      if cl.media.channels > a2 then cl.media.channels else a2)
      = fun (a2 : Int) (cl : CompiledClip) => max a2 cl.media.channels := by
    funext a2 cl
    exact if_gt_else_eq_max a2 cl.media.channels
  rw [hfun]

/-! #### Remaining claim theorems. -/

/-- C7: `Store.replace` is atomic — when validation fails, `replace`
returns exactly the first failing rule's message (which names the offending
clip, media, or track where one exists), the handler answers
`INVALID_ARGUMENT` broadcasting that message, and the store contents (hence
any subsequent `get`) are exactly what they were before the call. -/
theorem c7_replace_atomic (fs : FileSystem) (current : Option Snapshot)
    (edl : Edl) (err : String) (h : validateEdl fs edl = some err) :
    replace fs edl = .error err ∧
    storeAfterReplace fs current edl = current ∧
    storeGet (storeAfterReplace fs current edl) = storeGet current ∧
    updateEdl fs current edl =
      (.INVALID_ARGUMENT, [.EdlError edl.id err], current) := by
  have hr : replace fs edl = .error err := by
    unfold replace
    rw [h]
  refine ⟨hr, ?_, ?_, ?_⟩
  · simp [storeAfterReplace, hr]
  · simp [storeAfterReplace, storeGet, hr]
  · simp [updateEdl, hr]

/-- Witness for C7 at the empty-id EDL over a loaded store. -/
theorem c7_replace_atomic_witness :
    replace fsR edlBad = .error "EDL ID cannot be empty" ∧
    storeAfterReplace fsR (some snapR) edlBad = some snapR ∧
    storeGet (storeAfterReplace fsR (some snapR) edlBad) =
      storeGet (some snapR) ∧
    updateEdl fsR (some snapR) edlBad =
      (.INVALID_ARGUMENT, [.EdlError edlBad.id "EDL ID cannot be empty"],
        some snapR) :=
  c7_replace_atomic fsR (some snapR) edlBad "EDL ID cannot be empty" rfl

/-- C10: in every reachable store state holding a snapshot, the revision
stored inside the snapshot's EDL equals the snapshot's revision — every
successful replace overwrites the client-supplied revision with the
server-computed one. -/
theorem c10_snapshot_revision_invariant (fs : FileSystem)
    (st : Option Snapshot) (s : Snapshot) (hr : Reachable fs st)
    (hs : st = some s) : s.edl.revision = s.revision := by
  revert hs
  induction hr generalizing s with
  | empty => intro hs; cases hs
  | step st' edl h ih =>
    intro hs
    unfold storeAfterReplace at hs
    cases hrep : replace fs edl with
    | ok s' =>
      rw [hrep] at hs
      injection hs with h2
      exact h2 ▸ replace_ok_revision_invariant fs edl s' hrep
    | error e =>
      rw [hrep] at hs
      exact ih s hs

/-- Witness for C10 at the store reached by one successful replace. -/
theorem c10_snapshot_revision_invariant_witness :
    snapR.edl.revision = snapR.revision :=
  c10_snapshot_revision_invariant fsR (storeAfterReplace fsR none edlR) snapR
    (Reachable.step none edlR Reachable.empty) rfl

/-- C1 (amended): for every EDL accepted by `Store.replace`, the snapshot
revision equals the first 12 characters of the lowercase hex SHA-256 of the
canonical JSON of the EDL exactly as submitted — the revision field is
included as-is, not cleared — and it is 12 lowercase hex characters. -/
theorem c1_revision_of_submitted_edl (fs : FileSystem) (e : Edl)
    (s : Snapshot) (h : replace fs e = .ok s) :
    s.revision = strTake (calculateSHA256 (serializeEdl e)) 12 ∧
    s.revision.length = 12 ∧
    ∀ c ∈ s.revision.data, c ∈ hexDigits := by
  have h1 : s.revision = calculateRevision e := replace_ok_revision fs e s h
  refine ⟨h1, ?_, ?_⟩
  · rw [h1]
    unfold calculateRevision strTake
    show ((calculateSHA256 (serializeEdl e)).data.take 12).length = 12
    rw [List.length_take]
    have h2 := calculateSHA256_length (serializeEdl e)
    omega
  · rw [h1]
    intro c hc
    unfold calculateRevision strTake at hc
    exact bytesToHex_mem _ c (List.take_subset _ _ hc)

/-- Witness for C1 at the minimal fixture EDL. -/
theorem c1_revision_of_submitted_edl_witness :
    snapR.revision = strTake (calculateSHA256 (serializeEdl edlR)) 12 ∧
    snapR.revision.length = 12 ∧
    ∀ c ∈ snapR.revision.data, c ∈ hexDigits :=
  c1_revision_of_submitted_edl fsR edlR snapR rfl

/-- C2 (amended): replaying the stored EDL is revision-idempotent only
modulo clearing the revision: when the EDL was submitted with an empty
revision field, feeding the stored EDL back with its revision cleared
reproduces the very same snapshot, revision included. (Feeding it back
as-is succeeds but computes a different revision, since the stored revision
field is hashed along.) -/
theorem c2_replay_after_clear (fs : FileSystem) (e : Edl) (s : Snapshot)
    (h0 : e.revision = "") (h : replace fs e = .ok s) :
    replace fs (clearRevision s.edl) = .ok s := by
  unfold replace at h
  cases hv : validateEdl fs e with
  | some msg => rw [hv] at h; simp at h
  | none =>
    rw [hv] at h
    rw [if_pos (Or.inl h0)] at h
    injection h with h2
    have hedl : clearRevision s.edl = e := by
      rw [← h2]
      unfold clearRevision
      cases e
      simp_all
    rw [hedl]
    unfold replace
    rw [hv]
    rw [if_pos (Or.inl h0)]
    rw [h2]

/-- Witness for C2 at the minimal fixture EDL. -/
theorem c2_replay_after_clear_witness :
    replace fsR (clearRevision snapR.edl) = .ok snapR :=
  c2_replay_after_clear fsR edlR snapR rfl rfl

/-- C3 (amended): with an EDL loaded, the id matching and compilation
succeeding, a `RenderEdlWindow` request with `duration_samples = 0` returns
`INTERNAL` and writes no events at all to the stream — no `EdlError` and no
`Complete`. -/
theorem c3_zero_duration_internal_no_events (fs : FileSystem)
    (g sq : ℚ → ℚ) (current : Option Snapshot) (snap : Snapshot)
    (req : RenderEdlWindowRequest) (wavOk : Bool) (wavErr : String)
    (h1 : storeGet current = some snap) (h2 : snap.edl.id = req.edl_id)
    (h3 : ∃ c, compileEdl g snap = .ok c)
    (h4 : req.range.duration_samples = 0) :
    renderEdlWindow fs g sq current req wavOk wavErr = (.INTERNAL, []) := by
  obtain ⟨comp, hc⟩ := h3
  unfold renderEdlWindow
  rw [h1]
  show (if snap.edl.id ≠ req.edl_id then _ else _) = _
  rw [if_neg (by simp [h2])]
  rw [hc]
  unfold renderToWav renderTimeRange
  rw [h4]
  simp

/-- Witness for C3 at the spec-scenario fixture. -/
theorem c3_zero_duration_internal_no_events_witness :
    renderEdlWindow fs3 (fun _ => 1) id (some snap3) req3 true "" =
      (.INTERNAL, []) :=
  c3_zero_duration_internal_no_events fs3 (fun _ => 1) id (some snap3) snap3
    req3 true "" rfl rfl ⟨cedl3, rfl⟩ rfl

/-- C4 (amended): muted tracks are elided before mixing — removing them
from the compiled EDL leaves every output sample unchanged — while the clip
muted flag is ignored: forcing it to any value leaves the clip's rendered
contribution identical. -/
theorem c4_muted_semantics :
    (∀ (fs : FileSystem) (sq : ℚ → ℚ) (compiled : CompiledEdl) (bs : Nat)
      (range : TimeRange) (i : Nat),
      renderData (renderTimeRange fs sq (elideMutedTracks compiled) bs range)
          i
        = renderData (renderTimeRange fs sq compiled bs range) i) ∧
    (∀ (fs : FileSystem) (sq : ℚ → ℚ) (b : Bool) (c : CompiledClip)
      (rs re : Int) (buf : Nat → ℚ) (n : Nat) (off : Int),
      renderClip fs sq (setClipMuted b c) rs re buf n off
        = renderClip fs sq c rs re buf n off) := by
  constructor
  · intro fs sq compiled bs range i
    unfold renderTimeRange
    by_cases h : range.duration_samples ≤ 0
    · rw [if_pos h, if_pos h]
    · rw [if_neg h, if_neg h]
      unfold renderData
      show (renderBlocks fs sq (elideMutedTracks compiled) bs
          range.start_samples range.duration_samples.toNat
          range.duration_samples.toNat 0 (fun _ => 0) []).1 i
        = (renderBlocks fs sq compiled bs range.start_samples
          range.duration_samples.toNat range.duration_samples.toNat 0
          (fun _ => 0) []).1 i
      rw [renderBlocks_elide]
  · intro fs sq b c rs re buf n off
    rfl

/-- C5 (amended): when the media reader for a clip's path cannot be
obtained, the clip contributes nothing — the clip buffer is returned
untouched — and a positive-duration render nevertheless completes
successfully; the failure is only logged. -/
theorem c5_missing_reader_silent_skip :
    (∀ (fs : FileSystem) (sq : ℚ → ℚ) (clip : CompiledClip) (rs re : Int)
      (buf : Nat → ℚ) (n : Nat) (off : Int),
      getReader fs clip.media.path = none →
      renderClip fs sq clip rs re buf n off = buf) ∧
    (∀ (fs : FileSystem) (sq : ℚ → ℚ) (compiled : CompiledEdl) (bs : Nat)
      (range : TimeRange), 0 < range.duration_samples →
      renderOk (renderTimeRange fs sq compiled bs range) = true) := by
  constructor
  · intro fs sq clip rs re buf n off h
    unfold renderClip
    rw [h]
    by_cases hc : max clip.t0 rs ≥ min clip.t1 re
    · rw [if_pos hc]
    · rw [if_neg hc]
  · intro fs sq compiled bs range h
    unfold renderTimeRange
    rw [if_neg (not_le.mpr h)]
    rfl

/-- Witness for C5 at the unresolvable-path fixture. -/
theorem c5_missing_reader_silent_skip_witness :
    renderClip fs5 id cclip5 0 8 (fun _ => 0) 4 0 = (fun _ => 0) ∧
    renderOk (renderTimeRange fs5 id cedl5 4096 ⟨0, 4⟩) = true :=
  ⟨c5_missing_reader_silent_skip.1 fs5 id cclip5 0 8 (fun _ => 0) 4 0 rfl,
   c5_missing_reader_silent_skip.2 fs5 id cedl5 4096 ⟨0, 4⟩ (by decide)⟩

/-- C6 (amended): for every compiled EDL and positive-duration range, the
buffer render succeeds, yields exactly `duration_samples` frames, and has
`max(2, ...)` channels over the media the compiled clips reference —
media entries no clip references play no part. -/
theorem c6_output_geometry (fs : FileSystem) (sq : ℚ → ℚ)
    (compiled : CompiledEdl) (range : TimeRange)
    (h : 0 < range.duration_samples) :
    renderOk (renderToBuffer fs sq compiled range) = true ∧
    renderFrames (renderToBuffer fs sq compiled range) =
      range.duration_samples.toNat ∧
    renderChannels (renderToBuffer fs sq compiled range) =
      referencedChannelsMax compiled := by
  unfold renderToBuffer renderTimeRange
  rw [if_neg (not_le.mpr h)]
  exact ⟨rfl, rfl, maxChannelsOf_eq compiled⟩

/-- Witness for C6 at the unreferenced-wide-media fixture. -/
theorem c6_output_geometry_witness :
    renderOk (renderToBuffer fs6 id cedl6 ⟨0, 4⟩) = true ∧
    renderFrames (renderToBuffer fs6 id cedl6 ⟨0, 4⟩) =
      (⟨0, 4⟩ : TimeRange).duration_samples.toNat ∧
    renderChannels (renderToBuffer fs6 id cedl6 ⟨0, 4⟩) =
      referencedChannelsMax cedl6 :=
  c6_output_geometry fs6 id cedl6 ⟨0, 4⟩ (by decide)

end

end JuceAudioService
